import Mathlib

/-!
Shallow embedding of the delay-shield worker (src/services/worker/src/tasks.py).
Machine reals (Python floats) are modelled as rationals; datetimes as rational
seconds since an arbitrary epoch; database rows as explicit state records.
-/

namespace DelayShield

/-- Python `round` (banker's rounding, round-half-to-even) on a rational,
as used by `_risk` via `int(round(...))` (tasks.py lines 225, 227). -/
def pyRound (q : ℚ) : ℤ :=
  let f : ℤ := ⌊q⌋
  let r : ℚ := q - f
  if r < 1/2 then f
  else if r > 1/2 then f + 1
  else if f % 2 = 0 then f else f + 1

/-- `_next_interval_seconds(mode, status, budget_limited)` (tasks.py lines 244-251).
Statuses are the literal glyph strings stored on the trip row. -/
def next_interval_seconds (mode status : String) (budget_limited : Bool) : ℕ :=
  if budget_limited then 45 * 60
  else if mode = "conservative" then
    (if status = "🟢" then 60 * 60 else if status = "🟡" then 25 * 60 else 8 * 60)
  else if mode = "aggressive" then
    (if status = "🟢" then 20 * 60 else if status = "🟡" then 8 * 60 else 2 * 60)
  else
    (if status = "🟢" then 40 * 60 else if status = "🟡" then 15 * 60 else 5 * 60)

/-- `_recommend_depart(now, status, buffer_minutes)` (tasks.py lines 234-237);
`now` in rational seconds, result in rational seconds. -/
def recommend_depart (now : ℚ) (status : String) (buffer_minutes : ℤ) : ℚ :=
  if status = "🟢" then now
  else if status = "🟡" then now - (if buffer_minutes < 120 then (30 : ℚ) else 15) * 60
  else now - (if buffer_minutes < 60 then (60 : ℚ) else 30) * 60

/-- Output of the risk model `_risk` (tasks.py lines 221-232), omitting the
two free-text fields (`why`, suggestion) that no claim quantifies over. -/
structure RiskOut where
  pct : ℤ
  status : String
  buffer_minutes : ℤ
  deriving Repr, DecidableEq

/-- `_risk(deadline, eta, sev)` (tasks.py lines 221-232): slack in seconds,
banded base, clamped risk, integer percent, glyph status, rounded buffer. -/
def risk (deadline eta : ℚ) (sev : ℚ) : RiskOut :=
  let slack_s : ℚ := deadline - eta
  let base : ℚ :=
    if slack_s ≥ 4 * 3600 then 10/100
    else if slack_s ≥ 2 * 3600 then 20/100
    else if slack_s ≥ 0 then 40/100
    else if slack_s ≥ -2 * 3600 then 70/100
    else 85/100
  let r : ℚ := min (99/100) (max 0 (base + (25/100) * sev))
  let pct : ℤ := pyRound (r * 100)
  let status : String := if pct < 34 then "🟢" else if pct < 67 then "🟡" else "🔴"
  let buffer_minutes : ℤ := pyRound (slack_s / 60)
  ⟨pct, status, buffer_minutes⟩

/-- Modelled from the spec (§4.4): the risk model exactly as claim C2 words it,
with `clamp(x, lo, hi) = max lo (min x hi)` and thresholds written as plain
second counts. Compared against `risk`, which embeds the source. -/
def riskSpec (deadline eta : ℚ) (sev : ℚ) : RiskOut :=
  let slack_s : ℚ := deadline - eta
  let base : ℚ :=
    if slack_s ≥ 14400 then 1/10
    else if slack_s ≥ 7200 then 2/10
    else if slack_s ≥ 0 then 4/10
    else if slack_s ≥ -7200 then 7/10
    else 85/100
  let r : ℚ := max 0 (min (base + (1/4) * sev) (99/100))
  let pct : ℤ := pyRound (r * 100)
  let status : String := if pct < 34 then "🟢" else if pct < 67 then "🟡" else "🔴"
  ⟨pct, status, pyRound (slack_s / 60)⟩

/-! ## Quota ledger (`_consume_budget`, tasks.py lines 114-154) -/

/-- Environment limits (tasks.py lines 18-21, defaults from env vars). -/
structure Limits where
  owmDaily : ℕ
  routeDaily : ℕ
  owmPerMin : ℕ
  routePerMin : ℕ
  deriving Repr, DecidableEq

/-- The default environment limits (tasks.py lines 18-21). -/
def defaultLimits : Limits := ⟨800, 400, 30, 20⟩

/-- Point update of a two-argument counter map. -/
def upd2 (f : String → ℤ → ℕ) (a : String) (b : ℤ) (v : ℕ) : String → ℤ → ℕ :=
  fun x y => if x = a ∧ y = b then v else f x y

/-- Point update of a (trip, day) counter map. -/
def updT (f : ℕ → ℤ → ℕ) (a : ℕ) (b : ℤ) (v : ℕ) : ℕ → ℤ → ℕ :=
  fun x y => if x = a ∧ y = b then v else f x y

/-- The persisted counter tables: `api_usage_daily`, `api_usage_minute`,
`trip_api_usage_daily` (tasks.py lines 69-86). Absent rows read as 0, which
matches `_ensure_usage_row_*` creating them with `calls = 0`. Days and minute
buckets are abstract integer keys; trip ids are naturals. -/
structure BudgetState where
  gdaily : String → ℤ → ℕ
  gminute : String → ℤ → ℕ
  tOwm : ℕ → ℤ → ℕ
  tRoute : ℕ → ℤ → ℕ

/-- All-zero counters: the state before any consumption. -/
def BudgetState.zero : BudgetState :=
  ⟨fun _ _ => 0, fun _ _ => 0, fun _ _ => 0, fun _ _ => 0⟩

/-- `_consume_budget(db, trip, api_name, kind, amount)` (tasks.py lines 114-154),
restricted to its effect on the counters: cap selection by `api_name`
(lines 119-126), the four denial checks (lines 137-144), and the three
increments (lines 146-149). `capOwm`/`capRoute` are the trip's daily caps,
`tid` the trip id, `day`/`mb` the current day and minute bucket. Returns
the approval flag and the post-state. -/
def consume (L : Limits) (capOwm capRoute : ℕ) (tid : ℕ) (day mb : ℤ)
    (api : String) (amount : ℕ) (st : BudgetState) : Bool × BudgetState :=
  if st.gdaily api day + amount > (if api = "owm" then L.owmDaily else L.routeDaily) then (false, st)
  else if st.gminute api mb + amount > (if api = "owm" then L.owmPerMin else L.routePerMin) then (false, st)
  else if api = "owm" ∧ st.tOwm tid day + amount > capOwm then (false, st)
  else if api = "route" ∧ st.tRoute tid day + amount > capRoute then (false, st)
  else
    (true,
      { gdaily := upd2 st.gdaily api day (st.gdaily api day + amount)
        gminute := upd2 st.gminute api mb (st.gminute api mb + amount)
        tOwm := if api = "owm" then updT st.tOwm tid day (st.tOwm tid day + amount) else st.tOwm
        tRoute := if api = "owm" then st.tRoute else updT st.tRoute tid day (st.tRoute tid day + amount) })

/-- One consume call of a sequence: trip id, day, minute bucket, api, amount. -/
structure Call where
  tid : ℕ
  day : ℤ
  mb : ℤ
  api : String
  amount : ℕ

/-- Run a sequence of `consume` calls, each trip's daily caps given by `caps`,
keeping only the resulting counter state. -/
def runCalls (L : Limits) (caps : ℕ → ℕ × ℕ) : List Call → BudgetState → BudgetState
  | [], st => st
  | c :: cs, st =>
      runCalls L caps cs (consume L (caps c.tid).1 (caps c.tid).2 c.tid c.day c.mb c.api c.amount st).2

/-- Every counter row is within its configured cap. -/
def BudgetInv (L : Limits) (caps : ℕ → ℕ × ℕ) (st : BudgetState) : Prop :=
  (∀ d, st.gdaily "owm" d ≤ L.owmDaily) ∧
  (∀ d, st.gdaily "route" d ≤ L.routeDaily) ∧
  (∀ m, st.gminute "owm" m ≤ L.owmPerMin) ∧
  (∀ m, st.gminute "route" m ≤ L.routePerMin) ∧
  (∀ t d, st.tOwm t d ≤ (caps t).1) ∧
  (∀ t d, st.tRoute t d ≤ (caps t).2)

/-! ## Forecast client (`_forecast`, tasks.py lines 177-219) -/

/-- One timestamped slot of the provider's forecast list (tasks.py lines 190-201):
`dt` in epoch seconds; the four numeric fields are `Option` because the provider
may omit them, in which case the code reads them as 0 via `.get(..., 0.0)`. -/
structure Slot where
  dt : ℤ
  rain3h : Option ℚ
  snow3h : Option ℚ
  windSpeed : Option ℚ
  cloudsAll : Option ℚ
  deriving Repr, DecidableEq

/-- Severity of a slot (tasks.py lines 198-209): weighted sum of rain, snow,
wind and clouds, clamped into [0, 1]; absent fields default to 0. -/
def slotSeverity (s : Slot) : ℚ :=
  max 0 (min 1
    (min 1 (s.rain3h.getD 0 / 10) * (5/10) +
     min 1 (s.snow3h.getD 0 / 5) * (6/10) +
     min 1 (s.windSpeed.getD 0 / 15) * (4/10) +
     s.cloudsAll.getD 0 / 100 * (1/10)))

/-- Modelled from the spec (§4.3): the severity formula exactly as claim C7 words
it, `clamp(s, 0, 1)` written as `max 0 (min s 1)`. Compared against
`slotSeverity`, which embeds the source. -/
def slotSeveritySpec (s : Slot) : ℚ :=
  max 0 (min
    (min 1 (s.rain3h.getD 0 / 10) * (1/2) +
     min 1 (s.snow3h.getD 0 / 5) * (3/5) +
     min 1 (s.windSpeed.getD 0 / 15) * (2/5) +
     (s.cloudsAll.getD 0 / 100) * (1/10)) 1)

/-- One step of the nearest-slot scan of `_forecast` (tasks.py lines 190-194):
replace `best` whenever the new slot's absolute time difference to `eta` is
strictly smaller, so the first of equally-near slots wins. -/
def nearStep (eta : ℤ) (best : Option Slot) (it : Slot) : Option Slot :=
  match best with
  | none => some it
  | some b => if (it.dt - eta).natAbs < (b.dt - eta).natAbs then some it else some b

/-- The nearest-slot scan of `_forecast` (tasks.py lines 189-194), starting
from `best = None`. -/
def nearestSlot (eta : ℤ) (slots : List Slot) : Option Slot :=
  slots.foldl (nearStep eta) none

/-- The weather record returned by `_forecast`, restricted to the fields the
claims mention (`summary`, `severity`) plus the `budget_denied` marker the
recalculator adds on an owm denial (tasks.py lines 196, 211-219, 330). -/
structure Wx where
  severity : ℚ
  summary : Option String
  budget_denied : Bool
  deriving Repr, DecidableEq

/-- The empty-list result of `_forecast` (tasks.py line 196). -/
def noForecastWx : Wx := ⟨0, some "no-forecast", false⟩

/-- `_forecast(lat, lon, eta_dt)` after the HTTP fetch (tasks.py lines 189-219):
pick the slot nearest to `eta`, return its severity; on an empty list return
`(0.0, {summary: "no-forecast", severity: 0.0})`. -/
def forecast (eta : ℤ) (slots : List Slot) : ℚ × Wx :=
  match nearestSlot eta slots with
  | none => (0, noForecastWx)
  | some b => (slotSeverity b, ⟨slotSeverity b, none, false⟩)

/-! ## Audit transaction boundary of `_consume_budget` (tasks.py lines 146-154) -/

/-- Outcome of a consume together with its audit append. -/
structure ConsumeAuditedOut where
  approved : Bool
  raised : Bool
  st : BudgetState

/-- `_consume_budget` with the `budget_consume` audit append modelled explicitly
(tasks.py lines 146-154): the three increments are committed at line 150; the
audit event is inserted and committed in a separate transaction at lines
152-153. `auditOk = false` models that second transaction failing: the
exception propagates (`raised = true`) but the increments, already committed,
remain in `st`. -/
def consumeAudited (L : Limits) (capO capR : ℕ) (tid : ℕ) (day mb : ℤ)
    (api : String) (amount : ℕ) (auditOk : Bool) (st : BudgetState) : ConsumeAuditedOut :=
  match consume L capO capR tid day mb api amount st with
  | (false, st') => ⟨false, false, st'⟩
  | (true, st') => ⟨true, !auditOk, st'⟩

/-! ## Recalculator (`recalc_trip`, tasks.py lines 273-377) -/

/-- The `trips` row (tasks.py lines 33-59), restricted to the fields the
recalculator reads or writes; the free-text fields (`suggestion`, `why`,
`customer_message`) are omitted since no claim quantifies over them.
Times are rational seconds; `route_geojson` is an abstract handle. -/
structure TripRec where
  waypoints : List (ℚ × ℚ)
  deadline_at : ℚ
  eta_at : Option ℚ
  route_distance_m : Option ℤ
  route_duration_s : Option ℤ
  route_geojson : Option ℕ
  buffer_minutes : Option ℤ
  delay_risk_pct : Option ℤ
  status : Option String
  recommended_depart_at : Option ℚ
  policy_mode : String
  trip_owm_daily_cap : ℕ
  trip_route_daily_cap : ℕ
  next_calc_at : Option ℚ
  last_calc_at : Option ℚ
  calc_state : String
  deriving Repr, DecidableEq

/-- Audit events appended during one `recalc_trip` run (`trip_updates` rows,
with the payload fields the claims mention). -/
inductive Ev where
  | recalc_running
  | recalc_error (stage : String)
  | budget_denied (api : String)
  | budget_consume (api : String) (kind : String) (amount : ℕ)
  | recalc_done
  deriving Repr, DecidableEq

/-- `need_route` (tasks.py line 294): true iff the route duration or the route
geometry is absent from the trip row. -/
def need_route (t : TripRec) : Bool :=
  t.route_duration_s.isNone || t.route_geojson.isNone

/-- Result of one `recalc_trip` run: the trip row after the run, the counter
state, the audit events appended during the run (in order), whether the route
client was invoked, and the returned ok/error. -/
structure RecalcOut where
  trip : TripRec
  budget : BudgetState
  events : List Ev
  routeInvoked : Bool
  okRes : Bool
  err : Option String

/-- The tail of `recalc_trip` after the route phase (tasks.py lines 326-377):
owm consume (line 328), forecast or severity-0 fallback (lines 329-340), risk
(line 342), and the final single-transaction write of all computed fields
(lines 346-375). `budget_limited` is true exactly when the owm consume was
denied, since both forecast branches set it false. -/
def recalcFinish (L : Limits) (now : ℚ) (day mb : ℤ) (tid : ℕ)
    (forecastRes : Except String (ℚ × Wx)) (t : TripRec)
    (distm : Option ℤ) (durs : ℤ) (geom : Option ℕ)
    (st : BudgetState) (evs : List Ev) (routeInvoked : Bool) : RecalcOut :=
  match consume L t.trip_owm_daily_cap t.trip_route_daily_cap tid day mb "owm" 1 st with
  | (owmOk, st2) =>
    let eta : ℚ := now + (durs : ℚ)
    let budget_limited : Bool := !owmOk
    let sev : ℚ :=
      if owmOk then (match forecastRes with | .ok p => p.1 | .error _ => 0) else 0
    let evs2 : List Ev :=
      evs ++ (if owmOk then [Ev.budget_consume "owm" "weather_forecast" 1]
              else [Ev.budget_denied "owm"])
    let r := risk t.deadline_at eta sev
    let next_s := next_interval_seconds t.policy_mode r.status budget_limited
    { trip := { t with
        eta_at := some eta
        route_distance_m := distm
        route_duration_s := some durs
        route_geojson := geom
        buffer_minutes := some r.buffer_minutes
        delay_risk_pct := some r.pct
        status := some r.status
        recommended_depart_at := some (recommend_depart now r.status r.buffer_minutes)
        last_calc_at := some now
        next_calc_at := some (now + (next_s : ℚ))
        calc_state := if budget_limited then "budget_limited" else "done" }
      budget := st2
      events := evs2 ++ [Ev.recalc_done]
      routeInvoked := routeInvoked
      okRes := true
      err := none }

/-- `recalc_trip` for an existing trip (tasks.py lines 282-377): the transient
`calc_state = "running"` write (line 282) is overwritten by every exit path and
is not kept; `routeRes` and `forecastRes` stand for the outcomes of the two
external calls. After waypoint validation (lines 286-291, which changes no
scheduling field), the route phase consumes the route budget only when
`need_route` (lines 304-324); the cached branch reuses the stored duration,
which `need_route = false` guarantees to be present (`getD 0` is then never
the default). -/
def recalc (L : Limits) (now : ℚ) (day mb : ℤ) (tid : ℕ)
    (routeRes : Except String (ℤ × ℤ × ℕ))
    (forecastRes : Except String (ℚ × Wx))
    (t : TripRec) (st : BudgetState) : RecalcOut :=
  if t.waypoints.length < 2 then
    { trip := { t with calc_state := "error" }
      budget := st
      events := [Ev.recalc_running, Ev.recalc_error "validate"]
      routeInvoked := false
      okRes := false
      err := some "bad-waypoints" }
  else if need_route t then
    match consume L t.trip_owm_daily_cap t.trip_route_daily_cap tid day mb "route" 1 st with
    | (false, st1) =>
      { trip := { t with
          calc_state := "budget_limited"
          next_calc_at := some (now + (next_interval_seconds t.policy_mode (t.status.getD "🟡") true : ℚ))
          last_calc_at := some now }
        budget := st1
        events := [Ev.recalc_running, Ev.budget_denied "route"]
        routeInvoked := false
        okRes := false
        err := some "budget_denied_route" }
    | (true, st1) =>
      match routeRes with
      | .error _ =>
        { trip := { t with
            calc_state := "error"
            next_calc_at := some (now + (next_interval_seconds t.policy_mode (t.status.getD "🟡") false : ℚ))
            last_calc_at := some now }
          budget := st1
          events := [Ev.recalc_running, Ev.budget_consume "route" "route_calc" 1, Ev.recalc_error "route"]
          routeInvoked := true
          okRes := false
          err := some "route" }
      | .ok (dm, ds, g) =>
        recalcFinish L now day mb tid forecastRes t (some dm) ds (some g) st1
          [Ev.recalc_running, Ev.budget_consume "route" "route_calc" 1] true
  else
    recalcFinish L now day mb tid forecastRes t
      t.route_distance_m (t.route_duration_s.getD 0) t.route_geojson st
      [Ev.recalc_running] false

/-! ## Concrete rows used to instantiate the theorems -/

/-- A well-formed trip with two waypoints and no cached route. -/
def tripNoRoute : TripRec :=
  ⟨[(0, 0), (1, 1)], 20000, none, none, none, none, none, none, none, none,
   "balanced", 30, 15, none, none, "idle"⟩

/-- `tripNoRoute` with all three route fields already populated. -/
def tripCached : TripRec :=
  { tripNoRoute with
      route_distance_m := some 1000
      route_duration_s := some 3600
      route_geojson := some 7 }

/-- `tripNoRoute` with a per-trip route cap of 0, so any route consume is denied. -/
def tripCapped : TripRec := { tripNoRoute with trip_route_daily_cap := 0 }

/-- A trip with a single waypoint, failing validation; `next_calc_at` is set so
its preservation is observable. -/
def tripOneWp : TripRec := { tripNoRoute with waypoints := [(0, 0)], next_calc_at := some 0 }

lemma consume_cases (L : Limits) (capO capR : ℕ) (tid : ℕ) (day mb : ℤ)
    (api : String) (amount : ℕ) (st : BudgetState) :
    ((consume L capO capR tid day mb api amount st).1 = false ∧
     (consume L capO capR tid day mb api amount st).2 = st) ∨
    ((consume L capO capR tid day mb api amount st).1 = true ∧
     st.gdaily api day + amount ≤ (if api = "owm" then L.owmDaily else L.routeDaily) ∧
     st.gminute api mb + amount ≤ (if api = "owm" then L.owmPerMin else L.routePerMin) ∧
     (api = "owm" → st.tOwm tid day + amount ≤ capO) ∧
     (api = "route" → st.tRoute tid day + amount ≤ capR) ∧
     (consume L capO capR tid day mb api amount st).2 =
       { gdaily := upd2 st.gdaily api day (st.gdaily api day + amount)
         gminute := upd2 st.gminute api mb (st.gminute api mb + amount)
         tOwm := if api = "owm" then updT st.tOwm tid day (st.tOwm tid day + amount) else st.tOwm
         tRoute := if api = "owm" then st.tRoute else updT st.tRoute tid day (st.tRoute tid day + amount) }) := by
  unfold consume
  split_ifs <;> simp_all

lemma consume_cases_owm (L : Limits) (capO capR : ℕ) (tid : ℕ) (day mb : ℤ)
    (amount : ℕ) (st : BudgetState) :
    ((consume L capO capR tid day mb "owm" amount st).1 = false ∧
     (consume L capO capR tid day mb "owm" amount st).2 = st) ∨
    ((consume L capO capR tid day mb "owm" amount st).1 = true ∧
     st.gdaily "owm" day + amount ≤ L.owmDaily ∧
     st.gminute "owm" mb + amount ≤ L.owmPerMin ∧
     st.tOwm tid day + amount ≤ capO ∧
     (consume L capO capR tid day mb "owm" amount st).2 =
       { gdaily := upd2 st.gdaily "owm" day (st.gdaily "owm" day + amount)
         gminute := upd2 st.gminute "owm" mb (st.gminute "owm" mb + amount)
         tOwm := updT st.tOwm tid day (st.tOwm tid day + amount)
         tRoute := st.tRoute }) := by
  rcases consume_cases L capO capR tid day mb "owm" amount st with
    ⟨a, b⟩ | ⟨a, b1, b2, b3, _, b5⟩
  · exact Or.inl ⟨a, b⟩
  · exact Or.inr ⟨a, by simpa using b1, by simpa using b2, b3 rfl, by simpa using b5⟩

lemma consume_cases_route (L : Limits) (capO capR : ℕ) (tid : ℕ) (day mb : ℤ)
    (amount : ℕ) (st : BudgetState) :
    ((consume L capO capR tid day mb "route" amount st).1 = false ∧
     (consume L capO capR tid day mb "route" amount st).2 = st) ∨
    ((consume L capO capR tid day mb "route" amount st).1 = true ∧
     st.gdaily "route" day + amount ≤ L.routeDaily ∧
     st.gminute "route" mb + amount ≤ L.routePerMin ∧
     st.tRoute tid day + amount ≤ capR ∧
     (consume L capO capR tid day mb "route" amount st).2 =
       { gdaily := upd2 st.gdaily "route" day (st.gdaily "route" day + amount)
         gminute := upd2 st.gminute "route" mb (st.gminute "route" mb + amount)
         tOwm := st.tOwm
         tRoute := updT st.tRoute tid day (st.tRoute tid day + amount) }) := by
  rcases consume_cases L capO capR tid day mb "route" amount st with
    ⟨a, b⟩ | ⟨a, b1, b2, _, b4, b5⟩
  · exact Or.inl ⟨a, b⟩
  · exact Or.inr ⟨a, by simpa using b1, by simpa using b2, b4 rfl, by simpa using b5⟩

lemma consume_step_inv (L : Limits) (caps : ℕ → ℕ × ℕ) (tid : ℕ) (day mb : ℤ)
    (api : String) (amount : ℕ) (st : BudgetState)
    (hapi : api = "owm" ∨ api = "route")
    (h : BudgetInv L caps st) :
    BudgetInv L caps (consume L (caps tid).1 (caps tid).2 tid day mb api amount st).2 := by
  obtain ⟨i1, i2, i3, i4, i5, i6⟩ := h
  rcases hapi with rfl | rfl
  · rcases consume_cases_owm L (caps tid).1 (caps tid).2 tid day mb amount st with
      ⟨_, heq⟩ | ⟨_, hb1, hb2, hb3, heq⟩
    · rw [heq]; exact ⟨i1, i2, i3, i4, i5, i6⟩
    · rw [heq]
      refine ⟨?_, ?_, ?_, ?_, ?_, ?_⟩
      · intro d; simp only [upd2]; split_ifs with hc
        · obtain ⟨-, rfl⟩ := hc; exact hb1
        · exact i1 d
      · intro d; simp only [upd2]; split_ifs with hc
        · exact absurd hc.1 (by simp)
        · exact i2 d
      · intro m; simp only [upd2]; split_ifs with hc
        · obtain ⟨-, rfl⟩ := hc; exact hb2
        · exact i3 m
      · intro m; simp only [upd2]; split_ifs with hc
        · exact absurd hc.1 (by simp)
        · exact i4 m
      · intro t d; simp only [updT]; split_ifs with hc
        · obtain ⟨rfl, rfl⟩ := hc; exact hb3
        · exact i5 t d
      · intro t d; exact i6 t d
  · rcases consume_cases_route L (caps tid).1 (caps tid).2 tid day mb amount st with
      ⟨_, heq⟩ | ⟨_, hb1, hb2, hb4, heq⟩
    · rw [heq]; exact ⟨i1, i2, i3, i4, i5, i6⟩
    · rw [heq]
      refine ⟨?_, ?_, ?_, ?_, ?_, ?_⟩
      · intro d; simp only [upd2]; split_ifs with hc
        · exact absurd hc.1 (by simp)
        · exact i1 d
      · intro d; simp only [upd2]; split_ifs with hc
        · obtain ⟨-, rfl⟩ := hc; exact hb1
        · exact i2 d
      · intro m; simp only [upd2]; split_ifs with hc
        · exact absurd hc.1 (by simp)
        · exact i3 m
      · intro m; simp only [upd2]; split_ifs with hc
        · obtain ⟨-, rfl⟩ := hc; exact hb2
        · exact i4 m
      · intro t d; exact i5 t d
      · intro t d; simp only [updT]; split_ifs with hc
        · obtain ⟨rfl, rfl⟩ := hc; exact hb4
        · exact i6 t d

lemma runCalls_inv (L : Limits) (caps : ℕ → ℕ × ℕ) (calls : List Call) (st : BudgetState)
    (hapi : ∀ c ∈ calls, c.api = "owm" ∨ c.api = "route")
    (h : BudgetInv L caps st) :
    BudgetInv L caps (runCalls L caps calls st) := by
  induction calls generalizing st with
  | nil => exact h
  | cons c cs ih =>
    exact ih _ (fun x hx => hapi x (List.mem_cons_of_mem c hx))
      (consume_step_inv L caps c.tid c.day c.mb c.api c.amount st
        (hapi c (List.mem_cons_self c cs)) h)

lemma zero_inv (L : Limits) (caps : ℕ → ℕ × ℕ) : BudgetInv L caps BudgetState.zero :=
  ⟨fun _ => Nat.zero_le _, fun _ => Nat.zero_le _, fun _ => Nat.zero_le _,
   fun _ => Nat.zero_le _, fun _ _ => Nat.zero_le _, fun _ _ => Nat.zero_le _⟩

lemma consume_denied_unchanged (L : Limits) (capO capR : ℕ) (tid : ℕ) (day mb : ℤ)
    (api : String) (amount : ℕ) (st : BudgetState)
    (hden : (consume L capO capR tid day mb api amount st).1 = false) :
    (consume L capO capR tid day mb api amount st).2 = st := by
  rcases consume_cases L capO capR tid day mb api amount st with ⟨_, h⟩ | ⟨ht, _⟩
  · exact h
  · rw [ht] at hden; exact Bool.noConfusion hden

lemma consume_approved_adds (L : Limits) (capO capR : ℕ) (tid : ℕ) (day mb : ℤ)
    (api : String) (amount : ℕ) (st : BudgetState)
    (happ : (consume L capO capR tid day mb api amount st).1 = true) :
    (consume L capO capR tid day mb api amount st).2.gdaily api day
        = st.gdaily api day + amount ∧
    (consume L capO capR tid day mb api amount st).2.gminute api mb
        = st.gminute api mb + amount ∧
    (api = "owm" →
      (consume L capO capR tid day mb api amount st).2.tOwm tid day
          = st.tOwm tid day + amount ∧
      (consume L capO capR tid day mb api amount st).2.tRoute = st.tRoute) ∧
    (api = "route" →
      (consume L capO capR tid day mb api amount st).2.tRoute tid day
          = st.tRoute tid day + amount ∧
      (consume L capO capR tid day mb api amount st).2.tOwm = st.tOwm) := by
  rcases consume_cases L capO capR tid day mb api amount st with ⟨hf, _⟩ | ⟨_, _, _, _, _, heq⟩
  · rw [happ] at hf; exact Bool.noConfusion hf
  · rw [heq]
    refine ⟨by simp [upd2], by simp [upd2], fun ha => ?_, fun ha => ?_⟩
    · subst ha; exact ⟨by simp [updT], by simp⟩
    · subst ha; refine ⟨?_, by simp⟩
      have : ("route" : String) ≠ "owm" := by simp
      simp [this, updT]

lemma consume_owm_preserves_route (L : Limits) (capO capR : ℕ) (tid : ℕ) (day mb : ℤ)
    (amount : ℕ) (st : BudgetState) :
    (∀ d, (consume L capO capR tid day mb "owm" amount st).2.gdaily "route" d
        = st.gdaily "route" d) ∧
    (∀ m, (consume L capO capR tid day mb "owm" amount st).2.gminute "route" m
        = st.gminute "route" m) ∧
    (consume L capO capR tid day mb "owm" amount st).2.tRoute = st.tRoute := by
  rcases consume_cases_owm L capO capR tid day mb amount st with ⟨_, heq⟩ | ⟨_, _, _, _, heq⟩ <;>
    rw [heq]
  · exact ⟨fun _ => rfl, fun _ => rfl, rfl⟩
  · exact ⟨fun d => by simp [upd2], fun m => by simp [upd2], rfl⟩

lemma recalcFinish_shape (L : Limits) (now : ℚ) (day mb : ℤ) (tid : ℕ)
    (forecastRes : Except String (ℚ × Wx)) (t : TripRec)
    (distm : Option ℤ) (durs : ℤ) (geom : Option ℕ)
    (st : BudgetState) (evs : List Ev) (ri : Bool) :
    (recalcFinish L now day mb tid forecastRes t distm durs geom st evs ri).budget
        = (consume L t.trip_owm_daily_cap t.trip_route_daily_cap tid day mb "owm" 1 st).2 ∧
    (recalcFinish L now day mb tid forecastRes t distm durs geom st evs ri).routeInvoked = ri := by
  unfold recalcFinish
  rcases hc : consume L t.trip_owm_daily_cap t.trip_route_daily_cap tid day mb "owm" 1 st with
    ⟨ok, st2⟩
  exact ⟨rfl, rfl⟩

/-- Clamping from above then below equals clamping from below then above. -/
lemma min_max_clamp (x hi : ℚ) (hhi : 0 ≤ hi) :
    min hi (max 0 x) = max 0 (min x hi) := by
  rcases le_total x 0 with h | h <;> rcases le_total x hi with h2 | h2 <;>
    simp [min_def, max_def] <;> split_ifs <;> linarith

lemma nearFold_spec (eta : ℤ) (slots : List Slot) : ∀ a : Slot,
    ∃ c, slots.foldl (nearStep eta) (some a) = some c ∧ (c = a ∨ c ∈ slots) ∧
      (c.dt - eta).natAbs ≤ (a.dt - eta).natAbs ∧
      ∀ s ∈ slots, (c.dt - eta).natAbs ≤ (s.dt - eta).natAbs := by
  induction slots with
  | nil => exact fun a => ⟨a, rfl, Or.inl rfl, le_refl _, by simp⟩
  | cons s rest ih =>
    intro a
    by_cases hlt : (s.dt - eta).natAbs < (a.dt - eta).natAbs
    · obtain ⟨c, hf, hmem, hle, hall⟩ := ih s
      refine ⟨c, ?_, ?_, ?_, ?_⟩
      · simpa [List.foldl, nearStep, hlt] using hf
      · rcases hmem with rfl | hm
        · exact Or.inr (List.mem_cons_self _ _)
        · exact Or.inr (List.mem_cons_of_mem _ hm)
      · exact le_trans hle (le_of_lt hlt)
      · intro x hx
        rcases List.mem_cons.mp hx with rfl | hm
        · exact hle
        · exact hall x hm
    · obtain ⟨c, hf, hmem, hle, hall⟩ := ih a
      refine ⟨c, ?_, ?_, hle, ?_⟩
      · simpa [List.foldl, nearStep, hlt] using hf
      · rcases hmem with rfl | hm
        · exact Or.inl rfl
        · exact Or.inr (List.mem_cons_of_mem _ hm)
      · intro x hx
        rcases List.mem_cons.mp hx with rfl | hm
        · exact le_trans hle (Nat.le_of_not_lt hlt)
        · exact hall x hm

lemma nearestSlot_spec (eta : ℤ) (slots : List Slot) (hne : slots ≠ []) :
    ∃ c, nearestSlot eta slots = some c ∧ c ∈ slots ∧
      ∀ s ∈ slots, (c.dt - eta).natAbs ≤ (s.dt - eta).natAbs := by
  cases slots with
  | nil => exact absurd rfl hne
  | cons s rest =>
    obtain ⟨c, hf, hmem, hle, hall⟩ := nearFold_spec eta rest s
    refine ⟨c, ?_, ?_, ?_⟩
    · simpa [nearestSlot, List.foldl, nearStep] using hf
    · rcases hmem with rfl | hm
      · exact List.mem_cons_self _ _
      · exact List.mem_cons_of_mem _ hm
    · intro x hx
      rcases List.mem_cons.mp hx with rfl | hm
      · exact hle
      · exact hall x hm

lemma slotSeverity_eq_spec (s : Slot) : slotSeverity s = slotSeveritySpec s := by
  unfold slotSeverity slotSeveritySpec
  rw [min_comm]
  norm_num

/-! ## Claims -/

/-- C2: the risk model is a pure function of `(deadline, eta, severity)`; with
`slack_s = deadline - eta`, the base is banded at 14400, 7200, 0 and -7200 seconds,
`risk = clamp(base + 0.25*severity, 0, 0.99)`, `pct = round(risk*100)`, status
is 🟢 below 34, 🟡 below 67, 🔴 otherwise, and
`buffer_minutes = round(slack_s/60)`. Determinism holds because the model is a
pure function of exactly these three inputs. -/
theorem risk_model_matches_spec (deadline eta sev : ℚ) :
    risk deadline eta sev = riskSpec deadline eta sev := by
  have hcl : ∀ x : ℚ, min ((99 : ℚ)/100) (max 0 x) = max 0 (min x (99/100)) :=
    fun x => min_max_clamp x _ (by norm_num)
  unfold risk riskSpec
  simp only [hcl]
  norm_num

/-- C3: `next_interval_seconds` returns exactly the table values
(conservative 3600/1500/480, balanced 2400/900/300, aggressive 1200/480/120
for 🟢/🟡/🔴), and whenever `budget_limited` is true it returns exactly 2700
seconds regardless of mode and status, so every budget-limited recalculation
is rescheduled exactly 2700 seconds ahead. -/
theorem next_interval_table :
    (∀ mode status, next_interval_seconds mode status true = 2700) ∧
    next_interval_seconds "conservative" "🟢" false = 3600 ∧
    next_interval_seconds "conservative" "🟡" false = 1500 ∧
    next_interval_seconds "conservative" "🔴" false = 480 ∧
    next_interval_seconds "balanced" "🟢" false = 2400 ∧
    next_interval_seconds "balanced" "🟡" false = 900 ∧
    next_interval_seconds "balanced" "🔴" false = 300 ∧
    next_interval_seconds "aggressive" "🟢" false = 1200 ∧
    next_interval_seconds "aggressive" "🟡" false = 480 ∧
    next_interval_seconds "aggressive" "🔴" false = 120 :=
  ⟨fun _ _ => rfl, rfl, rfl, rfl, rfl, rfl, rfl, rfl, rfl, rfl⟩

/-- C9: every policy mode other than "conservative" and "aggressive" (unknown
and malformed modes included) falls through to the balanced-mode row
2400/900/300 when not budget-limited; the function is total, so an invalid
mode never raises, and for any status the result is one of the three balanced
values. -/
theorem next_interval_invalid_mode (mode : String)
    (h1 : mode ≠ "conservative") (h2 : mode ≠ "aggressive") :
    next_interval_seconds mode "🟢" false = 2400 ∧
    next_interval_seconds mode "🟡" false = 900 ∧
    next_interval_seconds mode "🔴" false = 300 ∧
    ∀ status, next_interval_seconds mode status false = 2400 ∨
      next_interval_seconds mode status false = 900 ∨
      next_interval_seconds mode status false = 300 := by
  unfold next_interval_seconds
  refine ⟨by simp [h1, h2], by simp [h1, h2], by simp [h1, h2], fun status => ?_⟩
  simp only [h1, h2, Bool.false_eq_true, if_false]
  split_ifs <;> simp

/-- Witness for C9 at the concrete unknown mode "turbo". -/
theorem next_interval_invalid_mode_witness :
    next_interval_seconds "turbo" "🟢" false = 2400 ∧
    next_interval_seconds "turbo" "🟡" false = 900 ∧
    next_interval_seconds "turbo" "🔴" false = 300 ∧
    ∀ status, next_interval_seconds "turbo" status false = 2400 ∨
      next_interval_seconds "turbo" status false = 900 ∨
      next_interval_seconds "turbo" status false = 300 :=
  next_interval_invalid_mode "turbo" (by decide) (by decide)

/-- C10: `recommend_depart` never returns a time after `now`; it returns `now`
exactly when the status is the green glyph, and otherwise moves departure
strictly earlier by 15, 30 or 60 minutes. -/
theorem recommend_depart_bounds (now : ℚ) (status : String) (buffer_minutes : ℤ) :
    recommend_depart now status buffer_minutes ≤ now ∧
    (recommend_depart now status buffer_minutes = now ↔ status = "🟢") ∧
    (recommend_depart now status buffer_minutes = now ∨
     now - recommend_depart now status buffer_minutes = 15 * 60 ∨
     now - recommend_depart now status buffer_minutes = 30 * 60 ∨
     now - recommend_depart now status buffer_minutes = 60 * 60) := by
  unfold recommend_depart
  split_ifs with h1 h2 h3 h4
  · exact ⟨le_refl _, by simp [h1], Or.inl rfl⟩
  · exact ⟨by linarith, ⟨fun he => False.elim (by linarith), fun hs => absurd hs h1⟩,
      Or.inr (Or.inr (Or.inl (by ring)))⟩
  · exact ⟨by linarith, ⟨fun he => False.elim (by linarith), fun hs => absurd hs h1⟩,
      Or.inr (Or.inl (by ring))⟩
  · exact ⟨by linarith, ⟨fun he => False.elim (by linarith), fun hs => absurd hs h1⟩,
      Or.inr (Or.inr (Or.inr (by ring)))⟩
  · exact ⟨by linarith, ⟨fun he => False.elim (by linarith), fun hs => absurd hs h1⟩,
      Or.inr (Or.inr (Or.inl (by ring)))⟩

/-- C1: `consume` is atomic and cap-respecting: a denied call leaves the
global-day, global-minute and per-trip-day counters exactly as they were; an
approved call adds exactly `amount` to each of the three applicable counters
(the per-trip column matching `api_name`) and touches no other column; every
counter row starts within its cap, and any sequence of `consume` calls for the
two APIs keeps every counter at or below its configured cap. -/
theorem consume_atomicity_and_caps (L : Limits) (caps : ℕ → ℕ × ℕ) (capO capR : ℕ)
    (tid : ℕ) (day mb : ℤ) (api : String) (amount : ℕ) (st : BudgetState)
    (hapi : api = "owm" ∨ api = "route") :
    ((consume L capO capR tid day mb api amount st).1 = false →
      (consume L capO capR tid day mb api amount st).2 = st) ∧
    ((consume L capO capR tid day mb api amount st).1 = true →
      (consume L capO capR tid day mb api amount st).2.gdaily api day
          = st.gdaily api day + amount ∧
      (consume L capO capR tid day mb api amount st).2.gminute api mb
          = st.gminute api mb + amount ∧
      (api = "owm" →
        (consume L capO capR tid day mb api amount st).2.tOwm tid day
            = st.tOwm tid day + amount ∧
        (consume L capO capR tid day mb api amount st).2.tRoute = st.tRoute) ∧
      (api = "route" →
        (consume L capO capR tid day mb api amount st).2.tRoute tid day
            = st.tRoute tid day + amount ∧
        (consume L capO capR tid day mb api amount st).2.tOwm = st.tOwm)) ∧
    BudgetInv L caps BudgetState.zero ∧
    (∀ calls : List Call, (∀ c ∈ calls, c.api = "owm" ∨ c.api = "route") →
      ∀ st0, BudgetInv L caps st0 → BudgetInv L caps (runCalls L caps calls st0)) :=
  ⟨consume_denied_unchanged L capO capR tid day mb api amount st,
   consume_approved_adds L capO capR tid day mb api amount st,
   zero_inv L caps,
   fun calls hc st0 h0 => runCalls_inv L caps calls st0 hc h0⟩

/-- Witness for C1: one approved owm consume from the zero state adds 1 to the
global-day and per-trip-day counters. -/
theorem consume_atomicity_and_caps_witness :
    ("owm" = "owm" ∨ "owm" = "route") ∧
    (consume defaultLimits 30 15 0 0 0 "owm" 1 BudgetState.zero).1 = true ∧
    (consume defaultLimits 30 15 0 0 0 "owm" 1 BudgetState.zero).2.gdaily "owm" 0
        = BudgetState.zero.gdaily "owm" 0 + 1 ∧
    (consume defaultLimits 30 15 0 0 0 "owm" 1 BudgetState.zero).2.tOwm 0 0
        = BudgetState.zero.tOwm 0 0 + 1 ∧
    BudgetInv defaultLimits (fun _ => (30, 15)) BudgetState.zero :=
  ⟨Or.inl rfl, rfl,
   ((consume_atomicity_and_caps defaultLimits (fun _ => (30, 15)) 30 15 0 0 0 "owm" 1
      BudgetState.zero (Or.inl rfl)).2.1 rfl).1,
   (((consume_atomicity_and_caps defaultLimits (fun _ => (30, 15)) 30 15 0 0 0 "owm" 1
      BudgetState.zero (Or.inl rfl)).2.1 rfl).2.2.1 rfl).1,
   (consume_atomicity_and_caps defaultLimits (fun _ => (30, 15)) 30 15 0 0 0 "owm" 1
      BudgetState.zero (Or.inl rfl)).2.2.1⟩

/-- C8 counterexample: an approved consume whose audit append fails leaves the
counters incremented, not unchanged — the increments were committed in an
earlier transaction (tasks.py line 150) than the audit append (lines 152-153). -/
theorem consume_audit_fail_cex :
    (consumeAudited defaultLimits 30 15 0 0 0 "owm" 1 false BudgetState.zero).approved = true ∧
    (consumeAudited defaultLimits 30 15 0 0 0 "owm" 1 false BudgetState.zero).raised = true ∧
    ¬ (consumeAudited defaultLimits 30 15 0 0 0 "owm" 1 false BudgetState.zero).st.gdaily "owm" 0
        = BudgetState.zero.gdaily "owm" 0 := by
  decide

/-- C8 as amended: when the `budget_consume` audit append fails after an
approved consume, the exception propagates but the three counter increments,
already committed, remain in place (no rollback occurs). -/
theorem consume_audit_fail_keeps_increments (L : Limits) (capO capR : ℕ) (tid : ℕ)
    (day mb : ℤ) (api : String) (amount : ℕ) (st : BudgetState)
    (happ : (consume L capO capR tid day mb api amount st).1 = true) :
    (consumeAudited L capO capR tid day mb api amount false st).approved = true ∧
    (consumeAudited L capO capR tid day mb api amount false st).raised = true ∧
    (consumeAudited L capO capR tid day mb api amount false st).st
        = (consume L capO capR tid day mb api amount st).2 ∧
    (consumeAudited L capO capR tid day mb api amount false st).st.gdaily api day
        = st.gdaily api day + amount ∧
    (consumeAudited L capO capR tid day mb api amount false st).st.gminute api mb
        = st.gminute api mb + amount := by
  have hc : consume L capO capR tid day mb api amount st
      = (true, (consume L capO capR tid day mb api amount st).2) := by
    rw [← happ]
  obtain ⟨h1, h2, -, -⟩ := consume_approved_adds L capO capR tid day mb api amount st happ
  unfold consumeAudited
  rw [hc]
  exact ⟨rfl, rfl, rfl, h1, h2⟩

/-- Witness for the amended C8 at a concrete approved consume. -/
theorem consume_audit_fail_keeps_increments_witness :
    (consume defaultLimits 30 15 0 0 0 "owm" 1 BudgetState.zero).1 = true ∧
    (consumeAudited defaultLimits 30 15 0 0 0 "owm" 1 false BudgetState.zero).raised = true ∧
    (consumeAudited defaultLimits 30 15 0 0 0 "owm" 1 false BudgetState.zero).st.gdaily "owm" 0
        = BudgetState.zero.gdaily "owm" 0 + 1 :=
  ⟨rfl,
   (consume_audit_fail_keeps_increments defaultLimits 30 15 0 0 0 "owm" 1
      BudgetState.zero rfl).2.1,
   (consume_audit_fail_keeps_increments defaultLimits 30 15 0 0 0 "owm" 1
      BudgetState.zero rfl).2.2.2.1⟩

/-- C7: `_forecast` on an empty slot list returns
`(0.0, {summary: "no-forecast", severity: 0.0})`; on a non-empty list it
selects a slot whose timestamp is nearest to the target time by absolute
difference and returns the claim's severity formula of that slot (absent
numeric fields defaulting to 0, result clamped into [0, 1]). -/
theorem forecast_nearest_and_severity (eta : ℤ) (slots : List Slot) (hne : slots ≠ []) :
    forecast eta [] = (0, noForecastWx) ∧
    (∀ s : Slot, slotSeverity s = slotSeveritySpec s) ∧
    ∃ c, nearestSlot eta slots = some c ∧ c ∈ slots ∧
      (∀ s ∈ slots, (c.dt - eta).natAbs ≤ (s.dt - eta).natAbs) ∧
      forecast eta slots = (slotSeveritySpec c, ⟨slotSeveritySpec c, none, false⟩) := by
  refine ⟨rfl, slotSeverity_eq_spec, ?_⟩
  obtain ⟨c, hf, hmem, hall⟩ := nearestSlot_spec eta slots hne
  refine ⟨c, hf, hmem, hall, ?_⟩
  unfold forecast
  rw [hf]
  simp [slotSeverity_eq_spec]

/-- Witness for C7 on a one-slot list. -/
theorem forecast_nearest_and_severity_witness :
    ([(⟨0, none, none, none, none⟩ : Slot)] ≠ []) ∧
    ∃ c, nearestSlot 5 [(⟨0, none, none, none, none⟩ : Slot)] = some c ∧
      c ∈ [(⟨0, none, none, none, none⟩ : Slot)] ∧
      (∀ s ∈ [(⟨0, none, none, none, none⟩ : Slot)],
        (c.dt - 5).natAbs ≤ (s.dt - 5).natAbs) ∧
      forecast 5 [(⟨0, none, none, none, none⟩ : Slot)]
          = (slotSeveritySpec c, ⟨slotSeveritySpec c, none, false⟩) :=
  ⟨by simp,
   (forecast_nearest_and_severity 5 [(⟨0, none, none, none, none⟩ : Slot)] (by simp)).2.2⟩

/-- C4: when the route budget consume is denied during a recalculation that
needs a route, the run sets `calc_state` to budget_limited, appends exactly
one `budget_denied{api:"route"}` event (and no `recalc_done`), sets
`next_calc_at = now + 2700`, stamps `last_calc_at = now`, leaves every route
field unchanged, and returns the budget-denied error. -/
theorem recalc_route_budget_denied (L : Limits) (now : ℚ) (day mb : ℤ) (tid : ℕ)
    (routeRes : Except String (ℤ × ℤ × ℕ)) (forecastRes : Except String (ℚ × Wx))
    (t : TripRec) (st : BudgetState)
    (hwp : ¬ t.waypoints.length < 2)
    (hnr : need_route t = true)
    (hden : (consume L t.trip_owm_daily_cap t.trip_route_daily_cap tid day mb "route" 1 st).1
        = false) :
    (recalc L now day mb tid routeRes forecastRes t st).trip.calc_state = "budget_limited" ∧
    (recalc L now day mb tid routeRes forecastRes t st).events
        = [Ev.recalc_running, Ev.budget_denied "route"] ∧
    (recalc L now day mb tid routeRes forecastRes t st).trip.next_calc_at
        = some (now + 2700) ∧
    (recalc L now day mb tid routeRes forecastRes t st).trip.last_calc_at = some now ∧
    (recalc L now day mb tid routeRes forecastRes t st).trip.route_distance_m
        = t.route_distance_m ∧
    (recalc L now day mb tid routeRes forecastRes t st).trip.route_duration_s
        = t.route_duration_s ∧
    (recalc L now day mb tid routeRes forecastRes t st).trip.route_geojson
        = t.route_geojson ∧
    Ev.recalc_done ∉ (recalc L now day mb tid routeRes forecastRes t st).events ∧
    (recalc L now day mb tid routeRes forecastRes t st).okRes = false ∧
    (recalc L now day mb tid routeRes forecastRes t st).err = some "budget_denied_route" := by
  have hc : consume L t.trip_owm_daily_cap t.trip_route_daily_cap tid day mb "route" 1 st
      = (false, (consume L t.trip_owm_daily_cap t.trip_route_daily_cap tid day mb "route" 1 st).2) := by
    rw [← hden]
  unfold recalc
  rw [if_neg hwp, if_pos hnr, hc]
  refine ⟨rfl, rfl, ?_, rfl, rfl, rfl, rfl, ?_, rfl, rfl⟩
  · norm_num [next_interval_seconds]
  · show Ev.recalc_done ∉ [Ev.recalc_running, Ev.budget_denied "route"]
    decide

/-- Witness for C4: a trip whose per-trip route cap is 0 is denied the route
budget and ends budget-limited, rescheduled 2700 seconds ahead. -/
theorem recalc_route_budget_denied_witness :
    (¬ tripCapped.waypoints.length < 2) ∧
    need_route tripCapped = true ∧
    (consume defaultLimits tripCapped.trip_owm_daily_cap tripCapped.trip_route_daily_cap
        0 0 0 "route" 1 BudgetState.zero).1 = false ∧
    (recalc defaultLimits 100 0 0 0 (Except.error "e") (Except.error "e") tripCapped
        BudgetState.zero).trip.calc_state = "budget_limited" ∧
    (recalc defaultLimits 100 0 0 0 (Except.error "e") (Except.error "e") tripCapped
        BudgetState.zero).trip.next_calc_at = some (100 + 2700) :=
  ⟨by decide, by decide, by decide,
   (recalc_route_budget_denied defaultLimits 100 0 0 0 (Except.error "e") (Except.error "e")
      tripCapped BudgetState.zero (by decide) (by decide) (by decide)).1,
   (recalc_route_budget_denied defaultLimits 100 0 0 0 (Except.error "e") (Except.error "e")
      tripCapped BudgetState.zero (by decide) (by decide) (by decide)).2.2.1⟩

/-- C5 counterexample: on a validation failure the code does NOT set
`next_calc_at = now + next_interval(policy, "🟡", false)` (tasks.py lines
286-291 update only `calc_state` and the audit log); with `now = 100` and the
balanced policy the claim demands `next_calc_at = some 1000`, but it stays at
its pre-call value `some 0`. -/
theorem recalc_validate_failure_cex :
    (recalc defaultLimits 100 0 0 0 (Except.error "e") (Except.error "e") tripOneWp
        BudgetState.zero).trip.calc_state = "error" ∧
    (recalc defaultLimits 100 0 0 0 (Except.error "e") (Except.error "e") tripOneWp
        BudgetState.zero).trip.next_calc_at = some 0 ∧
    ¬ (recalc defaultLimits 100 0 0 0 (Except.error "e") (Except.error "e") tripOneWp
        BudgetState.zero).trip.next_calc_at
      = some (100 + (next_interval_seconds tripOneWp.policy_mode "🟡" false : ℚ)) := by
  refine ⟨rfl, rfl, ?_⟩
  rw [show next_interval_seconds tripOneWp.policy_mode "🟡" false = 900 from rfl,
      show (recalc defaultLimits 100 0 0 0 (Except.error "e") (Except.error "e") tripOneWp
        BudgetState.zero).trip.next_calc_at = some 0 from rfl]
  norm_num

/-- C5 as amended: when a recalculation fails waypoint validation (fewer than
2 waypoints), the run sets `calc_state` to error and appends a
`recalc_error{stage:"validate"}` event, then returns; it does not modify
`next_calc_at`, `last_calc_at` or the counters. -/
theorem recalc_validate_failure (L : Limits) (now : ℚ) (day mb : ℤ) (tid : ℕ)
    (routeRes : Except String (ℤ × ℤ × ℕ)) (forecastRes : Except String (ℚ × Wx))
    (t : TripRec) (st : BudgetState)
    (hwp : t.waypoints.length < 2) :
    (recalc L now day mb tid routeRes forecastRes t st).trip.calc_state = "error" ∧
    (recalc L now day mb tid routeRes forecastRes t st).events
        = [Ev.recalc_running, Ev.recalc_error "validate"] ∧
    (recalc L now day mb tid routeRes forecastRes t st).trip.next_calc_at = t.next_calc_at ∧
    (recalc L now day mb tid routeRes forecastRes t st).trip.last_calc_at = t.last_calc_at ∧
    (recalc L now day mb tid routeRes forecastRes t st).budget = st ∧
    (recalc L now day mb tid routeRes forecastRes t st).okRes = false ∧
    (recalc L now day mb tid routeRes forecastRes t st).err = some "bad-waypoints" := by
  unfold recalc
  rw [if_pos hwp]
  exact ⟨rfl, rfl, rfl, rfl, rfl, rfl, rfl⟩

/-- Witness for the amended C5 on a one-waypoint trip. -/
theorem recalc_validate_failure_witness :
    tripOneWp.waypoints.length < 2 ∧
    (recalc defaultLimits 100 0 0 0 (Except.error "e") (Except.error "e") tripOneWp
        BudgetState.zero).trip.calc_state = "error" ∧
    (recalc defaultLimits 100 0 0 0 (Except.error "e") (Except.error "e") tripOneWp
        BudgetState.zero).trip.next_calc_at = tripOneWp.next_calc_at :=
  ⟨by decide,
   (recalc_validate_failure defaultLimits 100 0 0 0 (Except.error "e") (Except.error "e")
      tripOneWp BudgetState.zero (by decide)).1,
   (recalc_validate_failure defaultLimits 100 0 0 0 (Except.error "e") (Except.error "e")
      tripOneWp BudgetState.zero (by decide)).2.2.1⟩

/-- C6: `need_route` is true exactly when `route_duration_s` or `route_geojson`
is absent; when both are present, a recalculation never invokes the route
client and leaves every route counter (global-day, global-minute, per-trip)
untouched — only the owm budget is consumed. -/
theorem recalc_route_cached (L : Limits) (now : ℚ) (day mb : ℤ) (tid : ℕ)
    (routeRes : Except String (ℤ × ℤ × ℕ)) (forecastRes : Except String (ℚ × Wx))
    (t : TripRec) (st : BudgetState)
    (hwp : ¬ t.waypoints.length < 2)
    (hdur : t.route_duration_s ≠ none)
    (hgeo : t.route_geojson ≠ none) :
    (∀ t' : TripRec, need_route t' = true
        ↔ (t'.route_duration_s = none ∨ t'.route_geojson = none)) ∧
    (recalc L now day mb tid routeRes forecastRes t st).routeInvoked = false ∧
    (∀ d, (recalc L now day mb tid routeRes forecastRes t st).budget.gdaily "route" d
        = st.gdaily "route" d) ∧
    (∀ m, (recalc L now day mb tid routeRes forecastRes t st).budget.gminute "route" m
        = st.gminute "route" m) ∧
    (recalc L now day mb tid routeRes forecastRes t st).budget.tRoute = st.tRoute := by
  have hiff : ∀ t' : TripRec, need_route t' = true
      ↔ (t'.route_duration_s = none ∨ t'.route_geojson = none) := by
    intro t'
    simp [need_route, Option.isNone_iff_eq_none, Bool.or_eq_true]
  have hnr : ¬ need_route t = true := by
    rw [hiff t]
    exact fun h => h.elim hdur hgeo
  unfold recalc
  rw [if_neg hwp, if_neg hnr]
  obtain ⟨hb, hri⟩ := recalcFinish_shape L now day mb tid forecastRes t
    t.route_distance_m (t.route_duration_s.getD 0) t.route_geojson st [Ev.recalc_running] false
  obtain ⟨p1, p2, p3⟩ :=
    consume_owm_preserves_route L t.trip_owm_daily_cap t.trip_route_daily_cap tid day mb 1 st
  refine ⟨hiff, hri, fun d => ?_, fun m => ?_, ?_⟩ <;> rw [hb]
  · exact p1 d
  · exact p2 m
  · exact p3

/-- Witness for C6 on a trip with populated route fields. -/
theorem recalc_route_cached_witness :
    (¬ tripCached.waypoints.length < 2) ∧
    tripCached.route_duration_s ≠ none ∧
    tripCached.route_geojson ≠ none ∧
    (recalc defaultLimits 100 0 0 0 (Except.error "e") (Except.error "e") tripCached
        BudgetState.zero).routeInvoked = false ∧
    (recalc defaultLimits 100 0 0 0 (Except.error "e") (Except.error "e") tripCached
        BudgetState.zero).budget.tRoute = BudgetState.zero.tRoute :=
  ⟨by decide, by decide, by decide,
   (recalc_route_cached defaultLimits 100 0 0 0 (Except.error "e") (Except.error "e")
      tripCached BudgetState.zero (by decide) (by decide) (by decide)).2.1,
   (recalc_route_cached defaultLimits 100 0 0 0 (Except.error "e") (Except.error "e")
      tripCached BudgetState.zero (by decide) (by decide) (by decide)).2.2.2.2⟩

end DelayShield
